import Mathlib

/-
Verification of the wgpu-mipmap library (mipmap generation for wgpu textures).

Shallow embedding conventions:
* Machine integers (u32, usize) are modelled as Nat.  Overflowing
  arithmetic is modelled as checked arithmetic that panics on overflow
  (Rust debug semantics): a computation that can panic returns an Option
  or reports a `GenOutcome.panicked` outcome.  Float-to-integer `as`
  casts saturate (defined Rust behaviour), modelled with `min`/`max`.
* `get_mip_extent` (src/util.rs) converts each u32 axis to f32, divides
  by `2u32.pow(level) as f32` and floors.  The u32 -> f32 conversion
  rounds to nearest-even at a 24-bit significand; this exact rounding is
  `f32RoundNat`.  Division of an f32-exact natural number by an in-range
  power of two is exact in f32, and flooring the exact quotient is Nat
  division, so the whole f32 pipeline is captured by Nat arithmetic.
* GPU objects (device, pipelines, shader modules, textures, views) carry
  no data relevant to the claims beyond what the recorded commands and
  cache keys show; caches built by `new_with_format_hints` are modelled
  by the hint list together with the static per-format availability
  predicates, exactly as the construction loops populate them.
* A command encoder is a list of recorded commands; each `generate`
  returns the outcome together with the commands it appended.
-/

/-- Largest u32 value (float-to-u32 casts saturate here). -/
def u32Max : Nat := 4294967295

/-- usize overflow bound (64-bit target). -/
def usizeModulus : Nat := 2 ^ 64

/-- Checked u32/usize subtraction: `a - b` panics on underflow. -/
def u32CheckedSub (a b : Nat) : Option Nat :=
  if b ≤ a then some (a - b) else none

/-- Rust `u32::is_power_of_two`: exactly one bit set. -/
def u32IsPowerOfTwo (n : Nat) : Bool :=
  decide (0 < n) && decide (Nat.land n (n - 1) = 0)

/-- Fuel-driven floor-log2 (structural recursion so the kernel can
evaluate it; the fuel is instantiated with the argument itself). -/
def log2fuel : Nat → Nat → Nat
  | 0, _ => 0
  | fuel + 1, n => if n < 2 then 0 else log2fuel fuel (n / 2) + 1

/-- Floor of log2, `natLog2 0 = 0`. -/
def natLog2 (n : Nat) : Nat := log2fuel n n

/-- Exact value of the IEEE-754 round-to-nearest-even f32 conversion of a
natural number (`n as f32` in Rust), expressed as a natural number.  For
n ≤ 2^24 the conversion is exact; otherwise n is rounded to a multiple
of 2^k where k = floor(log2 n) - 23, ties going to the even multiple. -/
def f32RoundNat (n : Nat) : Nat :=
  if n ≤ 2 ^ 24 then n
  else
    let k := natLog2 n - 23
    let q := n / 2 ^ k
    let r := n % 2 ^ k
    let half := 2 ^ (k - 1)
    if r < half then q * 2 ^ k
    else if half < r then (q + 1) * 2 ^ k
    else if q % 2 = 0 then q * 2 ^ k else (q + 1) * 2 ^ k

/-- wgpu `Extent3d` (u32 fields). -/
structure Extent3d where
  width : Nat
  height : Nat
  depth : Nat
deriving DecidableEq, Repr

/-- One axis of `get_mip_extent`:
`((axis as f32) / (2u32.pow(level) as f32)).floor() as u32` followed by
`.max(1)`.  The f32 division by an exact power of two is exact, so the
floor of the quotient is Nat division of the rounded axis; the `as u32`
cast saturates at `u32Max`. -/
def mip_axis (a level : Nat) : Nat :=
  max 1 (min (f32RoundNat a / 2 ^ level) u32Max)

/-- src/util.rs `get_mip_extent`.  `2u32.pow(level)` overflows u32 for
level ≥ 32 (a panic under checked semantics), hence the Option. -/
def get_mip_extent (extent : Extent3d) (level : Nat) : Option Extent3d :=
  if level < 32 then
    some { width := mip_axis extent.width level
           height := mip_axis extent.height level
           depth := mip_axis extent.depth level }
  else none

/-- The spec's words for the mip extent formula ("each of
width/height/depth = max(1, floor(base / 2^level))"), to be compared
with the source's `get_mip_extent`. -/
def mip_extent_spec (extent : Extent3d) (level : Nat) : Extent3d :=
  { width := max 1 (extent.width / 2 ^ level)
    height := max 1 (extent.height / 2 ^ level)
    depth := max 1 (extent.depth / 2 ^ level) }

/-- wgpu constant `COPY_BYTES_PER_ROW_ALIGNMENT`. -/
def COPY_BYTES_PER_ROW_ALIGNMENT : Nat := 256

/-- src/util.rs `MipBufferDimensions`. -/
structure MipBufferDimensions where
  width : Nat
  height : Nat
  bytes_per_channel : Nat
  unpadded_bytes_per_row : Nat
  padded_bytes_per_row : Nat
deriving DecidableEq, Repr

/-- Source `MipBufferDimensions::new`, generalised over the row alignment
constant (the source reads it from `wgpu::COPY_BYTES_PER_ROW_ALIGNMENT`).
The usize products `width * bytes_per_channel` and
`unpadded + padding` panic on overflow (checked semantics), hence the
Option. -/
def MipBufferDimensions.new_aligned (align width height bytes_per_channel : Nat) :
    Option MipBufferDimensions :=
  let width' := max width 1
  let height' := max height 1
  let unpadded_bytes_per_row := width' * bytes_per_channel
  if unpadded_bytes_per_row < usizeModulus then
    let padded_bytes_per_row_padding :=
      (align - unpadded_bytes_per_row % align) % align
    if unpadded_bytes_per_row + padded_bytes_per_row_padding < usizeModulus then
      some { width := width'
             height := height'
             bytes_per_channel := bytes_per_channel
             unpadded_bytes_per_row := unpadded_bytes_per_row
             padded_bytes_per_row :=
               unpadded_bytes_per_row + padded_bytes_per_row_padding }
    else none
  else none

/-- src/util.rs `MipBufferDimensions::new` with the wgpu alignment. -/
def MipBufferDimensions.new (width height bytes_per_channel : Nat) :
    Option MipBufferDimensions :=
  MipBufferDimensions.new_aligned COPY_BYTES_PER_ROW_ALIGNMENT width height bytes_per_channel

/-- wgpu `TextureFormat` (the full 0.7-era enum, as enumerated by the
exhaustive match in src/backends/render.rs `to_sample_type`). -/
inductive TextureFormat where
  | R8Unorm | R8Snorm | R8Uint | R8Sint
  | R16Uint | R16Sint | R16Float
  | Rg8Unorm | Rg8Snorm | Rg8Uint | Rg8Sint
  | R32Uint | R32Sint | R32Float
  | Rg16Uint | Rg16Sint | Rg16Float
  | Rgba8Unorm | Rgba8UnormSrgb | Rgba8Snorm | Rgba8Uint | Rgba8Sint
  | Bgra8Unorm | Bgra8UnormSrgb
  | Rgb10a2Unorm | Rg11b10Float
  | Rg32Uint | Rg32Sint | Rg32Float
  | Rgba16Uint | Rgba16Sint | Rgba16Float
  | Rgba32Uint | Rgba32Sint | Rgba32Float
  | Depth32Float | Depth24Plus | Depth24PlusStencil8
  | Bc1RgbaUnorm | Bc1RgbaUnormSrgb | Bc2RgbaUnorm | Bc2RgbaUnormSrgb
  | Bc3RgbaUnorm | Bc3RgbaUnormSrgb | Bc4RUnorm | Bc4RSnorm
  | Bc5RgUnorm | Bc5RgSnorm | Bc6hRgbUfloat | Bc6hRgbSfloat
  | Bc7RgbaUnorm | Bc7RgbaUnormSrgb
  | Etc2RgbUnorm | Etc2RgbUnormSrgb | Etc2RgbA1Unorm | Etc2RgbA1UnormSrgb
  | Etc2RgbA8Unorm | Etc2RgbA8UnormSrgb
  | EacRUnorm | EacRSnorm | EtcRgUnorm | EtcRgSnorm
  | Astc4x4RgbaUnorm | Astc4x4RgbaUnormSrgb
  | Astc5x4RgbaUnorm | Astc5x4RgbaUnormSrgb
  | Astc5x5RgbaUnorm | Astc5x5RgbaUnormSrgb
  | Astc6x5RgbaUnorm | Astc6x5RgbaUnormSrgb
  | Astc6x6RgbaUnorm | Astc6x6RgbaUnormSrgb
  | Astc8x5RgbaUnorm | Astc8x5RgbaUnormSrgb
  | Astc8x6RgbaUnorm | Astc8x6RgbaUnormSrgb
  | Astc10x5RgbaUnorm | Astc10x5RgbaUnormSrgb
  | Astc10x6RgbaUnorm | Astc10x6RgbaUnormSrgb
  | Astc8x8RgbaUnorm | Astc8x8RgbaUnormSrgb
  | Astc10x8RgbaUnorm | Astc10x8RgbaUnormSrgb
  | Astc10x10RgbaUnorm | Astc10x10RgbaUnormSrgb
  | Astc12x10RgbaUnorm | Astc12x10RgbaUnormSrgb
  | Astc12x12RgbaUnorm | Astc12x12RgbaUnormSrgb
deriving DecidableEq, Repr

/-- wgpu `TextureDimension`. -/
inductive TextureDimension where
  | D1 | D2 | D3
deriving DecidableEq, Repr

/-- wgpu `TextureUsage` bitflags (bits COPY_SRC, COPY_DST, SAMPLED,
STORAGE, RENDER_ATTACHMENT), one Bool per bit. -/
structure TextureUsage where
  copy_src : Bool
  copy_dst : Bool
  sampled : Bool
  storage : Bool
  render_attachment : Bool
deriving DecidableEq, Repr

def TextureUsage.empty : TextureUsage := ⟨false, false, false, false, false⟩

def TextureUsage.COPY_SRC : TextureUsage := ⟨true, false, false, false, false⟩

def TextureUsage.COPY_DST : TextureUsage := ⟨false, true, false, false, false⟩

def TextureUsage.SAMPLED : TextureUsage := ⟨false, false, true, false, false⟩

def TextureUsage.STORAGE : TextureUsage := ⟨false, false, false, true, false⟩

def TextureUsage.RENDER_ATTACHMENT : TextureUsage := ⟨false, false, false, false, true⟩

/-- Bitwise or of usage flags. -/
def TextureUsage.union (a b : TextureUsage) : TextureUsage :=
  ⟨a.copy_src || b.copy_src, a.copy_dst || b.copy_dst, a.sampled || b.sampled,
   a.storage || b.storage, a.render_attachment || b.render_attachment⟩

/-- bitflags `contains`: every bit of `b` is set in `a`. -/
def TextureUsage.contains (a b : TextureUsage) : Bool :=
  (!b.copy_src || a.copy_src) && (!b.copy_dst || a.copy_dst) &&
  (!b.sampled || a.sampled) && (!b.storage || a.storage) &&
  (!b.render_attachment || a.render_attachment)

/-- wgpu `TextureDescriptor` (the label is irrelevant to the claims). -/
structure TextureDescriptor where
  size : Extent3d
  mip_level_count : Nat
  sample_count : Nat
  dimension : TextureDimension
  format : TextureFormat
  usage : TextureUsage
deriving DecidableEq, Repr

/-- src/core.rs `Error`. -/
inductive Error where
  | UnsupportedUsage (usage : TextureUsage)
  | UnsupportedDimension (dim : TextureDimension)
  | UnsupportedFormat (format : TextureFormat)
  | NpotTexture
  | UnknownFormat (format : TextureFormat)
deriving DecidableEq, Repr

/-- Outcome of one `generate` call: normal return, recoverable error, or
a Rust panic (assertion/overflow). -/
inductive GenOutcome where
  | ok
  | err (e : Error)
  | panicked
deriving DecidableEq, Repr

/-- Is the outcome a recoverable `Err`? -/
def GenOutcome.isErr : GenOutcome → Bool
  | .err _ => true
  | _ => false

/-- src/util.rs `format_bytes_per_channel`; `none` is the
`unimplemented!()` panic arm. -/
def format_bytes_per_channel (f : TextureFormat) : Option Nat :=
  match f with
  | .R8Unorm | .R8Snorm | .R8Uint | .R8Sint => some 1
  | .R16Uint | .R16Sint | .R16Float | .Rg8Unorm | .Rg8Snorm | .Rg8Uint | .Rg8Sint => some 2
  | .R32Uint | .R32Sint | .R32Float | .Rg16Uint | .Rg16Sint | .Rg16Float
  | .Rgba8Unorm | .Rgba8Snorm | .Rgba8Uint | .Rgba8Sint
  | .Bgra8Unorm | .Bgra8UnormSrgb | .Rgba8UnormSrgb
  | .Rgb10a2Unorm | .Rg11b10Float => some 4
  | .Rg32Uint | .Rg32Sint | .Rg32Float | .Rgba16Uint | .Rgba16Sint | .Rgba16Float => some 8
  | .Rgba32Uint | .Rgba32Sint | .Rgba32Float => some 16
  | _ => none

/-- wgpu `TextureSampleType` as used by the render backend. -/
inductive TextureSampleType where
  | Uint
  | Sint
  | Float (filterable : Bool)
deriving DecidableEq, Repr

/-- src/backends/render.rs `to_sample_type`. -/
def to_sample_type (f : TextureFormat) : TextureSampleType :=
  match f with
  | .R8Uint | .R16Uint | .Rg8Uint | .R32Uint | .Rg16Uint
  | .Rgba8Uint | .Rg32Uint | .Rgba16Uint | .Rgba32Uint => .Uint
  | .R8Sint | .R16Sint | .Rg8Sint | .R32Sint | .Rg16Sint
  | .Rgba8Sint | .Rg32Sint | .Rgba16Sint | .Rgba32Sint => .Sint
  | _ => .Float true

/-- src/backends/compute.rs `shader_for_format`: whether a compiled box
filter kernel exists for the format (true exactly on the formats with a
`Some(...)` arm; the macos/non-macos split selects different blobs for
the same formats). -/
def shader_for_format (f : TextureFormat) : Bool :=
  match f with
  | .R8Unorm | .R8Snorm | .R16Float | .Rg8Unorm | .Rg8Snorm
  | .R32Float | .Rg16Float | .Rgba8Unorm | .Rgba8UnormSrgb | .Bgra8UnormSrgb
  | .Rgba8Snorm | .Bgra8Unorm | .Rgb10a2Unorm | .Rg11b10Float
  | .Rg32Float | .Rgba16Float | .Rgba32Float => true
  | _ => false

/-- src/backends/recommended.rs `SUPPORTED_FORMATS`. -/
def SUPPORTED_FORMATS : List TextureFormat :=
  [.R8Unorm, .R8Snorm, .R16Float, .Rg8Unorm, .Rg8Snorm, .R32Float, .Rg16Float,
   .Rgba8Unorm, .Rgba8Snorm, .Bgra8Unorm, .Bgra8UnormSrgb, .Rgba8UnormSrgb,
   .Rgb10a2Unorm, .Rg11b10Float, .Rg32Float, .Rgba16Float, .Rgba32Float]

/-- wgpu `StorageTextureAccess`. -/
inductive StorageTextureAccess where
  | ReadOnly
  | WriteOnly
  | ReadWrite
deriving DecidableEq, Repr

/-- One storage-texture entry of the compute bind group layout. -/
structure BindGroupLayoutEntry where
  binding : Nat
  access : StorageTextureAccess
  format : TextureFormat
deriving DecidableEq, Repr

/-- src/backends/compute.rs `bind_group_layout_for_format`: binding 0 is
the source image, binding 1 the destination image.  The source declares
`StorageTextureAccess::ReadOnly` for BOTH entries. -/
def bind_group_layout_for_format (format : TextureFormat) : List BindGroupLayoutEntry :=
  [{ binding := 0, access := .ReadOnly, format := format },
   { binding := 1, access := .ReadOnly, format := format }]

/-- Which texture argument a view or copy refers to: the caller's
texture, or the temporary texture the Copy backend allocates. -/
inductive TexSel where
  | texture
  | tmp_texture
deriving DecidableEq, Repr

/-- wgpu `TextureViewDescriptor` data relevant here: the base mip level
and the level count (`NonZeroU32::new(1)` = `some 1`). -/
structure TextureView where
  base_mip_level : Nat
  level_count : Option Nat
deriving DecidableEq, Repr

/-- A command recorded into the encoder.  Each constructor carries the
data the claims talk about. -/
inductive Command where
  | computePass (format : TextureFormat) (src dst : TextureView)
      (dispatch_x dispatch_y dispatch_z : Nat)
  | renderPass (format : TextureFormat)
      (src_tex : TexSel) (src : TextureView)
      (dst_tex : TexSel) (dst : TextureView)
  | copyTextureToTexture (src_tex : TexSel) (src_mip : Nat)
      (dst_tex : TexSel) (dst_mip : Nat) (extent : Extent3d)
deriving DecidableEq, Repr

/-- src/backends/compute.rs `ComputeMipmapGenerator::required_usage`. -/
def ComputeMipmapGenerator.required_usage : TextureUsage := TextureUsage.STORAGE

/-- src/backends/render.rs `RenderMipmapGenerator::required_usage`. -/
def RenderMipmapGenerator.required_usage : TextureUsage :=
  TextureUsage.RENDER_ATTACHMENT.union TextureUsage.SAMPLED

/-- src/backends/copy.rs `CopyMipmapGenerator::required_usage`. -/
def CopyMipmapGenerator.required_usage : TextureUsage :=
  TextureUsage.SAMPLED.union TextureUsage.COPY_DST

/-- The compute pipeline/layout caches built by
`ComputeMipmapGenerator::new_with_format_hints`: a format is cached iff
it appears in the hints and `shader_for_format` has a kernel for it. -/
def ComputeMipmapGenerator.pipeline_cached (hints : List TextureFormat)
    (f : TextureFormat) : Bool :=
  hints.contains f && shader_for_format f

/-- The render pipeline cache built by
`RenderMipmapGenerator::new_with_format_hints`: a format is cached iff it
appears in the hints and its sample type has a cached layout. -/
def RenderMipmapGenerator.pipeline_cached (hints : List TextureFormat)
    (f : TextureFormat) : Bool :=
  hints.contains f && decide (to_sample_type f = .Float true)

/-- The render bind-group-layout cache: only
`TextureSampleType::Float { filterable: true }` is cached. -/
def RenderMipmapGenerator.layout_cached (st : TextureSampleType) : Bool :=
  decide (st = .Float true)

/-- The body of the compute backend's dispatch loop
(`for mip in 1..mip_count`), recursing on the number of remaining
iterations.  `get_mip_extent` panics for mip ≥ 32 (u32 pow overflow);
otherwise one compute pass is recorded binding the single-level views of
mips `mip - 1` and `mip` and dispatching
`(ext.width / 32).max(1) * (ext.height / 32).max(1) * 1` work groups. -/
def compute_record (size : Extent3d) (format : TextureFormat) :
    Nat → Nat → GenOutcome × List Command
  | _, 0 => (.ok, [])
  | mip, remaining + 1 =>
    match get_mip_extent size mip with
    | none => (.panicked, [])
    | some mip_ext =>
      let cmd := Command.computePass format
        { base_mip_level := mip - 1, level_count := some 1 }
        { base_mip_level := mip, level_count := some 1 }
        (max (mip_ext.width / 32) 1) (max (mip_ext.height / 32) 1) 1
      let rest := compute_record size format (mip + 1) remaining
      (rest.1, cmd :: rest.2)

/-- src/backends/compute.rs `ComputeMipmapGenerator::generate`; the
generator value is its hint list (see `pipeline_cached`).  Returns the
outcome and the commands the call appended to the encoder. -/
def ComputeMipmapGenerator.generate (hints : List TextureFormat)
    (texture_descriptor : TextureDescriptor) : GenOutcome × List Command :=
  if !u32IsPowerOfTwo texture_descriptor.size.width
      || !u32IsPowerOfTwo texture_descriptor.size.height then
    (.err .NpotTexture, [])
  else if texture_descriptor.dimension ≠ .D2 then
    (.err (.UnsupportedDimension texture_descriptor.dimension), [])
  else if !texture_descriptor.usage.contains ComputeMipmapGenerator.required_usage then
    (.err (.UnsupportedUsage texture_descriptor.usage), [])
  else if !ComputeMipmapGenerator.pipeline_cached hints texture_descriptor.format then
    (.err (.UnknownFormat texture_descriptor.format), [])
  else
    compute_record texture_descriptor.size texture_descriptor.format 1
      (texture_descriptor.mip_level_count - 1)

/-- One view of the render backend's view array: index 0 is mip 0 of the
src texture, index `mip_level ≥ 1` is mip `mip_level - dst_mip_offset`
of the dst texture (checked u32 subtraction). -/
def render_view (src_sel dst_sel : TexSel) (dst_mip_offset mip_level : Nat) :
    Option (TexSel × TextureView) :=
  if mip_level = 0 then
    some (src_sel, { base_mip_level := 0, level_count := some 1 })
  else
    (u32CheckedSub mip_level dst_mip_offset).map
      (fun b => (dst_sel, { base_mip_level := b, level_count := some 1 }))

/-- The render backend's eagerly built view array (panics propagate as
`none`). -/
def render_views (src_sel dst_sel : TexSel) (dst_mip_offset src_mip_count : Nat) :
    Option (List (TexSel × TextureView)) :=
  (List.range src_mip_count).mapM (render_view src_sel dst_sel dst_mip_offset)

/-- The render backend's pass loop (`for mip in 1..src_mip_count`): one
render pass per transition, binding view `mip - 1` as the sampled source
and view `mip` as the color attachment. -/
def render_record (format : TextureFormat) (views : List (TexSel × TextureView))
    (src_mip_count : Nat) : List Command :=
  (List.range (src_mip_count - 1)).map (fun j =>
    let src := views.getD j (.texture, { base_mip_level := 0, level_count := some 1 })
    let dst := views.getD (j + 1) (.texture, { base_mip_level := 0, level_count := some 1 })
    Command.renderPass format src.1 src.2 dst.1 dst.2)

/-- src/backends/render.rs `RenderMipmapGenerator::generate_src_dst`.
`src_sel`/`dst_sel` say which texture the `src_texture`/`dst_texture`
arguments are.  The three descriptor-invariant violations are panics
(Rust panics in the source), checked before the recoverable validation. -/
def RenderMipmapGenerator.generate_src_dst (hints : List TextureFormat)
    (src_sel dst_sel : TexSel)
    (src_texture_descriptor dst_texture_descriptor : TextureDescriptor)
    (dst_mip_offset : Nat) : GenOutcome × List Command :=
  let src_format := src_texture_descriptor.format
  let src_mip_count := src_texture_descriptor.mip_level_count
  let src_ext := src_texture_descriptor.size
  let src_dim := src_texture_descriptor.dimension
  let src_usage := src_texture_descriptor.usage
  let dst_format := dst_texture_descriptor.format
  let dst_mip_count := dst_texture_descriptor.mip_level_count
  let dst_ext := dst_texture_descriptor.size
  let dst_dim := dst_texture_descriptor.dimension
  let dst_usage := dst_texture_descriptor.usage
  match get_mip_extent src_ext 1 with
  | none => (.panicked, [])
  | some src_next_mip_ext =>
    if src_format ≠ dst_format then (.panicked, [])
    else if src_dim ≠ dst_dim then (.panicked, [])
    else if ¬((src_mip_count = dst_mip_count ∧ src_ext = dst_ext)
        ∨ src_next_mip_ext = dst_ext) then (.panicked, [])
    else if src_dim ≠ .D2 then (.err (.UnsupportedDimension src_dim), [])
    else if !src_usage.contains TextureUsage.SAMPLED then
      (.err (.UnsupportedUsage src_usage), [])
    else if !dst_usage.contains RenderMipmapGenerator.required_usage then
      (.err (.UnsupportedUsage dst_usage), [])
    else if !RenderMipmapGenerator.pipeline_cached hints src_format then
      (.err (.UnknownFormat src_format), [])
    else if !RenderMipmapGenerator.layout_cached (to_sample_type src_format) then
      (.err (.UnknownFormat src_format), [])
    else
      match render_views src_sel dst_sel dst_mip_offset src_mip_count with
      | none => (.panicked, [])
      | some views => (.ok, render_record src_format views src_mip_count)

/-- src/backends/render.rs `RenderMipmapGenerator::generate`: in-place
`generate_src_dst` with the same texture and descriptor and offset 0. -/
def RenderMipmapGenerator.generate (hints : List TextureFormat)
    (texture_descriptor : TextureDescriptor) : GenOutcome × List Command :=
  RenderMipmapGenerator.generate_src_dst hints .texture .texture
    texture_descriptor texture_descriptor 0

/-- The copy backend's copy loop (`for i in 0..mip_count`): copy mip `i`
of the temporary texture onto mip `i + 1` of the original texture with
extent `get_mip_extent(tmp_size, i)` (which panics for i ≥ 32). -/
def copy_record (tmp_size : Extent3d) : Nat → Nat → GenOutcome × List Command
  | _, 0 => (.ok, [])
  | i, remaining + 1 =>
    match get_mip_extent tmp_size i with
    | none => (.panicked, [])
    | some ext =>
      let cmd := Command.copyTextureToTexture .tmp_texture i .texture (i + 1) ext
      let rest := copy_record tmp_size (i + 1) remaining
      (rest.1, cmd :: rest.2)

/-- src/backends/copy.rs `CopyMipmapGenerator::generate`.  The generator
borrows a render generator, modelled by the render hint list.  The
temporary descriptor's `mip_level_count - 1` is a checked u32
subtraction (underflows to a panic when the count is 0). -/
def CopyMipmapGenerator.generate (hints : List TextureFormat)
    (texture_descriptor : TextureDescriptor) : GenOutcome × List Command :=
  match get_mip_extent texture_descriptor.size 1 with
  | none => (.panicked, [])
  | some tmp_size =>
    match u32CheckedSub texture_descriptor.mip_level_count 1 with
    | none => (.panicked, [])
    | some tmp_mip_level_count =>
      let tmp_descriptor : TextureDescriptor :=
        { size := tmp_size
          mip_level_count := tmp_mip_level_count
          sample_count := texture_descriptor.sample_count
          dimension := texture_descriptor.dimension
          format := texture_descriptor.format
          usage := RenderMipmapGenerator.required_usage.union TextureUsage.COPY_SRC }
      match RenderMipmapGenerator.generate_src_dst hints .texture .tmp_texture
          texture_descriptor tmp_descriptor 1 with
      | (.ok, render_cmds) =>
        let copied := copy_record tmp_size 0 tmp_descriptor.mip_level_count
        (copied.1, render_cmds ++ copied.2)
      | (out, render_cmds) => (out, render_cmds)

/-- src/backends/recommended.rs `RecommendedMipmapGenerator::generate`:
try Compute, then Render, then Copy on the same encoder; the first
non-`Err` outcome is returned; if all three return `Err`, return
`UnsupportedUsage` with the descriptor's usage. -/
def RecommendedMipmapGenerator.generate (hints : List TextureFormat)
    (texture_descriptor : TextureDescriptor) : GenOutcome × List Command :=
  match ComputeMipmapGenerator.generate hints texture_descriptor with
  | (.err _, compute_cmds) =>
    match RenderMipmapGenerator.generate hints texture_descriptor with
    | (.err _, render_cmds) =>
      match CopyMipmapGenerator.generate hints texture_descriptor with
      | (.err _, copy_cmds) =>
        (.err (.UnsupportedUsage texture_descriptor.usage),
         compute_cmds ++ render_cmds ++ copy_cmds)
      | (out, copy_cmds) => (out, compute_cmds ++ render_cmds ++ copy_cmds)
    | (out, render_cmds) => (out, compute_cmds ++ render_cmds)
  | (out, compute_cmds) => (out, compute_cmds)

/-- The row extraction step of src/util.rs `generate_and_copy_to_cpu`:
for each row y, append the first `unpadded_bytes_per_row` bytes starting
at offset `y * padded_bytes_per_row` of the mapped (padded) buffer. -/
def exact_buffer (d : MipBufferDimensions) (padded : List Nat) : List Nat :=
  (List.range d.height).flatMap (fun y =>
    (padded.drop (y * d.padded_bytes_per_row)).take d.unpadded_bytes_per_row)

/-- The per-level buffer dimensions computed by
`generate_and_copy_to_cpu`: the base width/height (already clamped by the
base `MipBufferDimensions::new`) divided by `2usize.pow(i)` (which
panics for i ≥ 64), fed to `MipBufferDimensions::new` again. -/
def readback_mip_dimensions (base_width base_height bytes_per_channel i : Nat) :
    Option MipBufferDimensions :=
  if i < 64 then
    MipBufferDimensions.new (max base_width 1 / 2 ^ i) (max base_height 1 / 2 ^ i)
      bytes_per_channel
  else none

/-! ### Arithmetic facts about the f32 rounding model -/

theorem log2fuel_spec : ∀ fuel n : Nat, n ≤ fuel → 1 ≤ n →
    2 ^ log2fuel fuel n ≤ n ∧ n < 2 ^ (log2fuel fuel n + 1) := by
  intro fuel
  induction fuel with
  | zero => intro n hn h1; omega
  | succ f ih =>
    intro n hn h1
    by_cases h2 : n < 2
    · have hn1 : n = 1 := by omega
      subst hn1
      simp [log2fuel]
    · have hrec := ih (n / 2) (by omega) (by omega)
      simp only [log2fuel, if_neg h2]
      obtain ⟨hl, hr⟩ := hrec
      have e1 : 2 ^ (log2fuel f (n / 2) + 1) = 2 ^ log2fuel f (n / 2) * 2 :=
        pow_succ 2 _
      have e2 : 2 ^ (log2fuel f (n / 2) + 1 + 1) = 2 ^ (log2fuel f (n / 2) + 1) * 2 :=
        pow_succ 2 _
      omega

theorem natLog2_spec (n : Nat) (h1 : 1 ≤ n) :
    2 ^ natLog2 n ≤ n ∧ n < 2 ^ (natLog2 n + 1) :=
  log2fuel_spec n n le_rfl h1

theorem natLog2_unique (n k : Nat) (hl : 2 ^ k ≤ n) (hr : n < 2 ^ (k + 1)) :
    natLog2 n = k := by
  have h1 : 1 ≤ n := le_trans (Nat.one_le_two_pow) hl
  obtain ⟨hl', hr'⟩ := natLog2_spec n h1
  by_contra hne
  rcases Nat.lt_or_ge (natLog2 n) k with hlt | hge
  · have : 2 ^ (natLog2 n + 1) ≤ 2 ^ k := Nat.pow_le_pow_right (by norm_num) (by omega)
    omega
  · have hk : k + 1 ≤ natLog2 n := by omega
    have : 2 ^ (k + 1) ≤ 2 ^ natLog2 n := Nat.pow_le_pow_right (by norm_num) hk
    omega

theorem f32RoundNat_small (n : Nat) (h : n ≤ 2 ^ 24) : f32RoundNat n = n := by
  unfold f32RoundNat
  rw [if_pos h]

/-- Any natural whose significand fits in 24 bits (a representable f32
value in this range) is a fixed point of the rounding. -/
theorem f32RoundNat_fix (c k : Nat) (hc : c ≤ 2 ^ 24) :
    f32RoundNat (c * 2 ^ k) = c * 2 ^ k := by
  by_cases hsmall : c * 2 ^ k ≤ 2 ^ 24
  · exact f32RoundNat_small _ hsmall
  · have hbig : 2 ^ 24 < c * 2 ^ k := by omega
    set n := c * 2 ^ k with hn
    have h1 : 1 ≤ n := by omega
    obtain ⟨hl, hr⟩ := natLog2_spec n h1
    have h24 : 24 ≤ natLog2 n := by
      by_contra hcon
      have : 2 ^ (natLog2 n + 1) ≤ 2 ^ 24 := Nat.pow_le_pow_right (by norm_num) (by omega)
      omega
    set K := natLog2 n - 23 with hK
    have hK1 : 1 ≤ K := by omega
    have hdvd : 2 ^ K ∣ n := by
      rcases le_or_lt K k with hKk | hkK
      · exact Dvd.dvd.mul_left (pow_dvd_pow 2 hKk) c
      · have hle : 2 ^ (23 + K) ≤ c * 2 ^ k := by
          have : 2 ^ (23 + K) ≤ 2 ^ natLog2 n := Nat.pow_le_pow_right (by norm_num) (by omega)
          omega
        have hsplit : 2 ^ (23 + K) = 2 ^ (23 + K - k) * 2 ^ k := by
          rw [← pow_add]
          congr 1
          omega
        have hcge : 2 ^ (23 + K - k) ≤ c := by
          have h2k : 0 < 2 ^ k := Nat.pos_pow_of_pos k (by norm_num)
          have := hle
          rw [hsplit] at this
          exact Nat.le_of_mul_le_mul_right this h2k
        have h24le : 2 ^ 24 ≤ 2 ^ (23 + K - k) := Nat.pow_le_pow_right (by norm_num) (by omega)
        have hceq : c = 2 ^ 24 := by omega
        have hneq : n = 2 ^ (24 + k) := by
          rw [hn, hceq, ← pow_add]
        have hlogn : natLog2 n = 24 + k := by
          apply natLog2_unique
          · rw [hneq]
          · rw [hneq]
            exact Nat.pow_lt_pow_right (by norm_num) (by omega)
        have hKeq : K = k + 1 := by omega
        rw [hKeq, hneq]
        exact pow_dvd_pow 2 (by omega)
    have hmod : n % 2 ^ K = 0 := by
      obtain ⟨t, ht⟩ := hdvd
      rw [ht]
      exact Nat.mul_mod_right _ _
    have hhalfpos : 0 < 2 ^ (K - 1) := Nat.pow_pos (by norm_num)
    simp only [f32RoundNat, if_neg hsmall, ← hK]
    rw [hmod, if_pos hhalfpos]
    exact Nat.div_mul_cancel hdvd

/-- For n above 2^24 the rounding produces `c * 2^(natLog2 n - 23)` with
`c ≤ 2^24`. -/
theorem f32RoundNat_big_exact (n : Nat) (hbig : 2 ^ 24 < n) :
    ∃ c, c ≤ 2 ^ 24 ∧ f32RoundNat n = c * 2 ^ (natLog2 n - 23) := by
  have h1 : 1 ≤ n := by omega
  obtain ⟨hl, hr⟩ := natLog2_spec n h1
  have h24 : 24 ≤ natLog2 n := by
    by_contra hcon
    have : 2 ^ (natLog2 n + 1) ≤ 2 ^ 24 := Nat.pow_le_pow_right (by norm_num) (by omega)
    omega
  have hq : n / 2 ^ (natLog2 n - 23) < 2 ^ 24 := by
    apply Nat.div_lt_iff_lt_mul (Nat.pow_pos (by norm_num)) |>.mpr
    calc n < 2 ^ (natLog2 n + 1) := hr
    _ = 2 ^ 24 * 2 ^ (natLog2 n - 23) := by
      rw [← pow_add]
      congr 1
      omega
  have hnotle : ¬ n ≤ 2 ^ 24 := by omega
  simp only [f32RoundNat, if_neg hnotle]
  split_ifs
  · exact ⟨n / 2 ^ (natLog2 n - 23), by omega, rfl⟩
  · exact ⟨n / 2 ^ (natLog2 n - 23) + 1, by omega, rfl⟩
  · exact ⟨n / 2 ^ (natLog2 n - 23), by omega, rfl⟩
  · exact ⟨n / 2 ^ (natLog2 n - 23) + 1, by omega, rfl⟩

/-- The rounding always lands on a 24-bit-significand value. -/
theorem f32RoundNat_exact (n : Nat) :
    ∃ c k, c ≤ 2 ^ 24 ∧ f32RoundNat n = c * 2 ^ k := by
  by_cases h : n ≤ 2 ^ 24
  · exact ⟨n, 0, h, by rw [f32RoundNat_small n h]; ring⟩
  · obtain ⟨c, hc, heq⟩ := f32RoundNat_big_exact n (by omega)
    exact ⟨c, _, hc, heq⟩

/-- In the u32 range, rounding never exceeds 2^32. -/
theorem f32RoundNat_le (n : Nat) (h : n < 2 ^ 32) : f32RoundNat n ≤ 2 ^ 32 := by
  by_cases hs : n ≤ 2 ^ 24
  · rw [f32RoundNat_small n hs]
    omega
  · obtain ⟨c, hc, heq⟩ := f32RoundNat_big_exact n (by omega)
    have h1 : 1 ≤ n := by omega
    obtain ⟨hl, _⟩ := natLog2_spec n h1
    have hlog : natLog2 n ≤ 31 := by
      by_contra hcon
      have : 2 ^ 32 ≤ 2 ^ natLog2 n := Nat.pow_le_pow_right (by norm_num) (by omega)
      omega
    calc f32RoundNat n = c * 2 ^ (natLog2 n - 23) := heq
    _ ≤ 2 ^ 24 * 2 ^ (natLog2 n - 23) := Nat.mul_le_mul_right _ hc
    _ = 2 ^ (24 + (natLog2 n - 23)) := by rw [pow_add]
    _ ≤ 2 ^ 32 := Nat.pow_le_pow_right (by norm_num) (by omega)

/-- The level-1 axis value `max 1 (f32RoundNat a / 2)` is itself exactly
representable, hence fixed by a further conversion to f32. -/
theorem f32RoundNat_half_fix (a : Nat) :
    f32RoundNat (max 1 (f32RoundNat a / 2)) = max 1 (f32RoundNat a / 2) := by
  obtain ⟨c, k, hc, heq⟩ := f32RoundNat_exact a
  cases k with
  | zero =>
    apply f32RoundNat_small
    have : f32RoundNat a = c := by simpa using heq
    have h23 : f32RoundNat a / 2 ≤ 2 ^ 23 := by omega
    have : (2 : Nat) ^ 23 ≤ 2 ^ 24 := by norm_num
    omega
  | succ j =>
    have hhalf : f32RoundNat a / 2 = c * 2 ^ j := by
      rw [heq, pow_succ, ← Nat.mul_assoc]
      exact Nat.mul_div_cancel _ (by norm_num)
    rw [hhalf]
    by_cases hz : c * 2 ^ j = 0
    · rw [hz]
      exact f32RoundNat_small _ (by norm_num)
    · have h1 : 1 ≤ c * 2 ^ j := by omega
      rw [max_eq_right h1]
      exact f32RoundNat_fix c j hc

/-- Pure arithmetic core of halving composition for one axis. -/
theorem div_pow_max_one (m l : Nat) :
    max 1 (max 1 (m / 2) / 2 ^ l) = max 1 (m / 2 ^ (l + 1)) := by
  rcases Nat.lt_or_ge m 2 with hm | hm
  · have h2 : m / 2 = 0 := by omega
    have h3 : m / 2 ^ (l + 1) = 0 := Nat.div_eq_of_lt (by
      have : (2 : Nat) ≤ 2 ^ (l + 1) := by
        calc (2 : Nat) = 2 ^ 1 := by norm_num
        _ ≤ 2 ^ (l + 1) := Nat.pow_le_pow_right (by norm_num) (by omega)
      omega)
    rw [h2, h3]
    rcases Nat.eq_zero_or_pos l with hl | hl
    · subst hl; simp
    · have : (1 : Nat) / 2 ^ l = 0 := Nat.div_eq_of_lt (Nat.one_lt_two_pow (by omega))
      simp [this]
  · have h1 : 1 ≤ m / 2 := by omega
    rw [max_eq_right h1, Nat.div_div_eq_div_mul]
    congr 2
    rw [pow_succ]
    ring

/-- Halving composition for one axis of `get_mip_extent`, on the u32
domain, for levels that do not overflow `2u32.pow`. -/
theorem mip_axis_comp (a L : Nat) (ha : a < 2 ^ 32) (h1 : 1 ≤ L) (h31 : L ≤ 31) :
    mip_axis (mip_axis a 1) (L - 1) = mip_axis a L := by
  have hm : f32RoundNat a ≤ 2 ^ 32 := f32RoundNat_le a ha
  have hu32 : (2 : Nat) ^ 31 ≤ u32Max := by norm_num [u32Max]
  have hmin1 : min (f32RoundNat a / 2 ^ 1) u32Max = f32RoundNat a / 2 := by
    rw [pow_one, min_eq_left]
    have : f32RoundNat a / 2 ≤ 2 ^ 31 := by omega
    omega
  have hinner : mip_axis a 1 = max 1 (f32RoundNat a / 2) := by
    rw [mip_axis, hmin1]
  rw [hinner, mip_axis, f32RoundNat_half_fix a]
  have hb31 : max 1 (f32RoundNat a / 2) ≤ 2 ^ 31 := by
    have h2 : f32RoundNat a / 2 ≤ 2 ^ 31 := by omega
    have h3 : (1 : Nat) ≤ 2 ^ 31 := by norm_num
    omega
  have hminL : min (max 1 (f32RoundNat a / 2) / 2 ^ (L - 1)) u32Max =
      max 1 (f32RoundNat a / 2) / 2 ^ (L - 1) := by
    rw [min_eq_left]
    have := Nat.div_le_self (max 1 (f32RoundNat a / 2)) (2 ^ (L - 1))
    omega
  rw [hminL]
  have hminR : min (f32RoundNat a / 2 ^ L) u32Max = f32RoundNat a / 2 ^ L := by
    rw [min_eq_left]
    have h2L : (2 : Nat) ≤ 2 ^ L := by
      calc (2 : Nat) = 2 ^ 1 := by norm_num
      _ ≤ 2 ^ L := Nat.pow_le_pow_right (by norm_num) h1
    have hle : f32RoundNat a / 2 ^ L ≤ f32RoundNat a / 2 :=
      Nat.div_le_div_left h2L (by norm_num)
    have : f32RoundNat a / 2 ≤ 2 ^ 31 := by omega
    omega
  rw [mip_axis, hminR]
  have hL : L - 1 + 1 = L := by omega
  rw [div_pow_max_one (f32RoundNat a) (L - 1), hL]

/-! ### Claim C1 -/

/-- Claim C1 counterexample: at base extent (33554431, 1, 1) and level 1,
`get_mip_extent` (whose f32 conversion rounds 2^25 - 1 up to 2^25)
returns width 16777216, while max(1, floor(33554431 / 2)) = 16777215, so
the claimed exact formula fails on the code. -/
theorem get_mip_extent_formula_counterexample :
    get_mip_extent ⟨33554431, 1, 1⟩ 1 ≠ some (mip_extent_spec ⟨33554431, 1, 1⟩ 1) := by
  decide

/-- Claim C1 (amended): `get_mip_extent` cannot panic and agrees exactly
with max(1, floor(base / 2^level)) on every axis whenever every base
axis is at most 2^24 (where the u32-to-f32 conversion is exact) and the
level is at most 31 (where `2u32.pow(level)` does not overflow). -/
theorem get_mip_extent_matches_spec (e : Extent3d) (level : Nat)
    (hw : e.width ≤ 2 ^ 24) (hh : e.height ≤ 2 ^ 24) (hd : e.depth ≤ 2 ^ 24)
    (hl : level ≤ 31) :
    get_mip_extent e level = some (mip_extent_spec e level) := by
  have haxis : ∀ a : Nat, a ≤ 2 ^ 24 → mip_axis a level = max 1 (a / 2 ^ level) := by
    intro a ha
    rw [mip_axis, f32RoundNat_small a ha, min_eq_left]
    have h1 : a / 2 ^ level ≤ a := Nat.div_le_self a _
    have h2 : (2 : Nat) ^ 24 ≤ u32Max := by norm_num [u32Max]
    omega
  rw [get_mip_extent, if_pos (by omega : level < 32), mip_extent_spec]
  rw [haxis e.width hw, haxis e.height hh, haxis e.depth hd]

/-- Claim C1 witness. -/
theorem get_mip_extent_matches_spec_witness :
    get_mip_extent ⟨512, 512, 1⟩ 3 = some (mip_extent_spec ⟨512, 512, 1⟩ 3) :=
  get_mip_extent_matches_spec ⟨512, 512, 1⟩ 3 (by norm_num) (by norm_num)
    (by norm_num) (by norm_num)

/-! ### Claim C2 -/

/-- Claim C2 counterexample: at extent (5, 1, 1) and level L = 32 the
direct computation panics (`2u32.pow(32)` overflows u32) while the
composed computation returns (1, 1, 1), so the claimed identity fails
for L = 32. -/
theorem halving_composes_counterexample :
    (get_mip_extent ⟨5, 1, 1⟩ 1).bind (fun e1 => get_mip_extent e1 (32 - 1)) ≠
      get_mip_extent ⟨5, 1, 1⟩ 32 := by
  decide

/-- Claim C2 (amended): halving composes,
`extent_at_level(extent_at_level(E, 1), L - 1) = extent_at_level(E, L)`,
for every u32 extent E and every level 1 ≤ L ≤ 31 (for L ≥ 32 the direct
computation overflows `2u32.pow`). -/
theorem halving_composes (e : Extent3d) (L : Nat) (h1 : 1 ≤ L) (h31 : L ≤ 31)
    (hw : e.width < 2 ^ 32) (hh : e.height < 2 ^ 32) (hd : e.depth < 2 ^ 32) :
    (get_mip_extent e 1).bind (fun e1 => get_mip_extent e1 (L - 1)) =
      get_mip_extent e L := by
  have hL1 : L - 1 < 32 := by omega
  have hL : L < 32 := by omega
  simp only [get_mip_extent, if_pos (show (1 : Nat) < 32 by norm_num), if_pos hL1,
    if_pos hL, Option.some_bind]
  simp only [Option.some.injEq, Extent3d.mk.injEq]
  exact ⟨mip_axis_comp e.width L hw h1 h31, mip_axis_comp e.height L hh h1 h31,
    mip_axis_comp e.depth L hd h1 h31⟩

/-- Claim C2 witness. -/
theorem halving_composes_witness :
    (get_mip_extent ⟨512, 384, 1⟩ 1).bind (fun e1 => get_mip_extent e1 (5 - 1)) =
      get_mip_extent ⟨512, 384, 1⟩ 5 :=
  halving_composes ⟨512, 384, 1⟩ 5 (by norm_num) (by norm_num) (by norm_num)
    (by norm_num) (by norm_num)

/-! ### Claim C3 -/

/-- Inversion of `MipBufferDimensions.new_aligned`: a successful result
has exactly the clamped and padded fields computed by the source. -/
theorem new_aligned_inv (align w h b : Nat) (d : MipBufferDimensions)
    (hd : MipBufferDimensions.new_aligned align w h b = some d) :
    d.width = max w 1 ∧ d.height = max h 1 ∧ d.bytes_per_channel = b ∧
    d.unpadded_bytes_per_row = max w 1 * b ∧
    d.padded_bytes_per_row =
      max w 1 * b + (align - (max w 1 * b) % align) % align := by
  unfold MipBufferDimensions.new_aligned at hd
  dsimp only at hd
  split_ifs at hd
  injection hd with hd
  subst hd
  exact ⟨rfl, rfl, rfl, rfl, rfl⟩

/-- Claim C3 counterexample: at width = 2^64 - 1, height = 1,
bytes_per_texel = 1 the computation of `padded_bytes_per_row` overflows
usize (2^64 - 1 + 1 = 2^64), so `MipBufferDimensions::new` panics
instead of returning the claimed values. -/
theorem mip_buffer_dimensions_overflow_counterexample :
    MipBufferDimensions.new (2 ^ 64 - 1) 1 1 = none := by
  decide

/-- Claim C3 (amended): whenever `max(width,1) * bytes_per_texel + 255`
fits in usize (no overflow; always true for real texture widths), the
layout calculator clamps width and height to a minimum of 1 and returns
`unpadded = max(width,1) * bytes_per_texel` and
`padded = unpadded + (256 - unpadded % 256) % 256`; consequently
padded ≥ unpadded, padded is a multiple of the alignment constant 256,
and padded = unpadded exactly when unpadded is already a multiple. -/
theorem mip_buffer_dimensions_new_spec (w h b : Nat)
    (hov : max w 1 * b + 255 < 2 ^ 64) :
    ∃ d, MipBufferDimensions.new w h b = some d ∧
      d.width = max w 1 ∧ d.height = max h 1 ∧ d.bytes_per_channel = b ∧
      d.unpadded_bytes_per_row = max w 1 * b ∧
      d.padded_bytes_per_row =
        d.unpadded_bytes_per_row + (256 - d.unpadded_bytes_per_row % 256) % 256 ∧
      d.unpadded_bytes_per_row ≤ d.padded_bytes_per_row ∧
      d.padded_bytes_per_row % 256 = 0 ∧
      (d.padded_bytes_per_row = d.unpadded_bytes_per_row ↔
        d.unpadded_bytes_per_row % 256 = 0) := by
  have hsome : MipBufferDimensions.new w h b = some
      { width := max w 1, height := max h 1, bytes_per_channel := b,
        unpadded_bytes_per_row := max w 1 * b,
        padded_bytes_per_row :=
          max w 1 * b + (256 - (max w 1 * b) % 256) % 256 } := by
    unfold MipBufferDimensions.new MipBufferDimensions.new_aligned
      COPY_BYTES_PER_ROW_ALIGNMENT usizeModulus
    rw [if_pos (by omega), if_pos (by omega)]
  refine ⟨_, hsome, rfl, rfl, rfl, rfl, rfl, ?_, ?_, ?_⟩ <;> simp only <;> omega

/-- Claim C3 witness. -/
theorem mip_buffer_dimensions_new_spec_witness :
    ∃ d, MipBufferDimensions.new 100 50 4 = some d ∧
      d.width = max 100 1 ∧ d.height = max 50 1 ∧ d.bytes_per_channel = 4 ∧
      d.unpadded_bytes_per_row = max 100 1 * 4 ∧
      d.padded_bytes_per_row =
        d.unpadded_bytes_per_row + (256 - d.unpadded_bytes_per_row % 256) % 256 ∧
      d.unpadded_bytes_per_row ≤ d.padded_bytes_per_row ∧
      d.padded_bytes_per_row % 256 = 0 ∧
      (d.padded_bytes_per_row = d.unpadded_bytes_per_row ↔
        d.unpadded_bytes_per_row % 256 = 0) :=
  mip_buffer_dimensions_new_spec 100 50 4 (by norm_num)

/-! ### Claim C4 -/

/-- The 511x511 (non-power-of-two) descriptor of spec scenario C, with
the Copy backend's required usage and the render-supported format
R8Unorm (mip count 9 = 1 + floor(log2 511), as the repo's tests use). -/
def npot_copy_descriptor : TextureDescriptor :=
  { size := ⟨511, 511, 1⟩, mip_level_count := 9, sample_count := 1,
    dimension := .D2, format := .R8Unorm,
    usage := CopyMipmapGenerator.required_usage }

/-- Claim C4: for every descriptor whose width or height is not a power
of two the Compute backend returns NpotTexture (recording nothing, and
regardless of dimension, usage and format, since this check comes
first); the Copy backend succeeds on the 511x511 descriptor above. -/
theorem compute_rejects_npot_copy_accepts :
    (∀ (hints : List TextureFormat) (desc : TextureDescriptor),
      (!u32IsPowerOfTwo desc.size.width || !u32IsPowerOfTwo desc.size.height) = true →
      ComputeMipmapGenerator.generate hints desc = (.err .NpotTexture, [])) ∧
    (CopyMipmapGenerator.generate [.R8Unorm] npot_copy_descriptor).1 = .ok := by
  constructor
  · intro hints desc h
    unfold ComputeMipmapGenerator.generate
    rw [if_pos h]
  · decide

/-- Claim C4 witness. -/
theorem compute_rejects_npot_copy_accepts_witness :
    ComputeMipmapGenerator.generate [.R8Unorm] npot_copy_descriptor =
      (.err .NpotTexture, []) :=
  compute_rejects_npot_copy_accepts.1 [.R8Unorm] npot_copy_descriptor (by decide)

/-! ### Claim C5 -/

/-- Claim C5 divergence: for every format, both entries of the compute
bind group layout — binding 0 (source) AND binding 1 (destination) —
declare `StorageTextureAccess::ReadOnly`; the destination binding has no
write access, contradicting the claimed read/write storage binding. -/
theorem compute_bind_group_layout_read_only (f : TextureFormat) :
    (bind_group_layout_for_format f).map (fun e => (e.binding, e.access)) =
      [(0, StorageTextureAccess.ReadOnly), (1, StorageTextureAccess.ReadOnly)] :=
  rfl

/-! ### Claim C6 -/

/-- A 511x511 R8Unorm 2D descriptor whose usage has SAMPLED but not
COPY_DST. -/
def sampled_only_descriptor : TextureDescriptor :=
  { size := ⟨511, 511, 1⟩, mip_level_count := 9, sample_count := 1,
    dimension := .D2, format := .R8Unorm, usage := TextureUsage.SAMPLED }

/-- Claim C6 divergence: the Copy backend's generate returns Ok for a
texture with SAMPLED but without COPY_DST (the descriptor does not even
contain the backend's own `required_usage`), because the only usage
validation on the original texture is the Render backend's SAMPLED check
on the source; COPY_DST is never checked before the texture-to-texture
copies are recorded. -/
theorem copy_generate_ok_without_copy_dst :
    sampled_only_descriptor.usage.copy_dst = false ∧
    sampled_only_descriptor.usage.contains CopyMipmapGenerator.required_usage = false ∧
    (CopyMipmapGenerator.generate [.R8Unorm] sampled_only_descriptor).1 = .ok := by
  decide

/-! ### Claim C7 -/

/-- Claim C7: the Recommended dispatcher's outcome is exactly: Compute's
outcome if it is not an error, else Render's if not an error, else
Copy's if not an error, else `UnsupportedUsage` carrying the
descriptor's usage bitset (the three underlying errors are discarded). -/
theorem recommended_fallback_order (hints : List TextureFormat)
    (desc : TextureDescriptor) :
    (RecommendedMipmapGenerator.generate hints desc).1 =
      (if (ComputeMipmapGenerator.generate hints desc).1.isErr = false then
        (ComputeMipmapGenerator.generate hints desc).1
      else if (RenderMipmapGenerator.generate hints desc).1.isErr = false then
        (RenderMipmapGenerator.generate hints desc).1
      else if (CopyMipmapGenerator.generate hints desc).1.isErr = false then
        (CopyMipmapGenerator.generate hints desc).1
      else .err (.UnsupportedUsage desc.usage)) := by
  unfold RecommendedMipmapGenerator.generate
  rcases hc : ComputeMipmapGenerator.generate hints desc with ⟨co, cc⟩
  rcases hr : RenderMipmapGenerator.generate hints desc with ⟨ro, rc⟩
  rcases hk : CopyMipmapGenerator.generate hints desc with ⟨ko, kc⟩
  cases co <;> cases ro <;> cases ko <;> simp [GenOutcome.isErr]

/-! ### Claim C10 -/

/-- Claim C10: with `mip_level_count = 0` the Copy backend panics (the
temporary descriptor's `mip_level_count - 1` underflows u32) before
recording anything, instead of returning an error; for every count ≥ 1
the checked subtraction is well defined and equals count - 1. -/
theorem copy_underflow_on_zero_mips :
    (∀ (hints : List TextureFormat) (desc : TextureDescriptor),
      desc.mip_level_count = 0 →
      CopyMipmapGenerator.generate hints desc = (.panicked, [])) ∧
    (∀ n : Nat, 1 ≤ n → u32CheckedSub n 1 = some (n - 1)) := by
  constructor
  · intro hints desc h
    unfold CopyMipmapGenerator.generate
    simp [get_mip_extent, u32CheckedSub, h]
  · intro n hn
    unfold u32CheckedSub
    rw [if_pos hn]

/-- Claim C10 witness. -/
theorem copy_underflow_on_zero_mips_witness :
    CopyMipmapGenerator.generate []
        { size := ⟨8, 8, 1⟩, mip_level_count := 0, sample_count := 1,
          dimension := .D2, format := .R8Unorm,
          usage := TextureUsage.SAMPLED } = (.panicked, []) ∧
      u32CheckedSub 5 1 = some 4 :=
  ⟨copy_underflow_on_zero_mips.1 [] _ rfl,
   copy_underflow_on_zero_mips.2 5 (by norm_num)⟩

/-! ### Claim C8 -/

/-- The compute dispatch loop never produces a recoverable error (only
Ok, or a panic from `get_mip_extent` overflow). -/
theorem compute_record_no_err (size : Extent3d) (fmt : TextureFormat) :
    ∀ remaining mip : Nat, ((compute_record size fmt mip remaining).1).isErr = false := by
  intro remaining
  induction remaining with
  | zero => intro mip; rfl
  | succ r ih =>
    intro mip
    unfold compute_record
    rcases h : get_mip_extent size mip with _ | ext
    · rfl
    · exact ih (mip + 1)

/-- The copy loop never produces a recoverable error. -/
theorem copy_record_no_err (tmp_size : Extent3d) :
    ∀ remaining i : Nat, ((copy_record tmp_size i remaining).1).isErr = false := by
  intro remaining
  induction remaining with
  | zero => intro i; rfl
  | succ r ih =>
    intro i
    unfold copy_record
    rcases h : get_mip_extent tmp_size i with _ | ext
    · rfl
    · exact ih (i + 1)

/-- If `generate_src_dst` returns an error, it recorded no commands. -/
theorem render_src_dst_err_no_commands (hints : List TextureFormat)
    (ss ds : TexSel) (sd dd : TextureDescriptor) (off : Nat) (e : Error) :
    (RenderMipmapGenerator.generate_src_dst hints ss ds sd dd off).1 = .err e →
    (RenderMipmapGenerator.generate_src_dst hints ss ds sd dd off).2 = [] := by
  unfold RenderMipmapGenerator.generate_src_dst
  dsimp only
  rcases hx : get_mip_extent sd.size 1 with _ | ext
  · intro _; rfl
  · dsimp only
    split_ifs <;> try (intro _; rfl)
    rcases hv : render_views ss ds off sd.mip_level_count with _ | views
    · intro _; rfl
    · intro h
      exact absurd h (by simp)

/-- If the compute backend's generate returns an error, it recorded no
commands. -/
theorem compute_err_no_commands (hints : List TextureFormat)
    (desc : TextureDescriptor) (e : Error) :
    (ComputeMipmapGenerator.generate hints desc).1 = .err e →
    (ComputeMipmapGenerator.generate hints desc).2 = [] := by
  unfold ComputeMipmapGenerator.generate
  split_ifs <;> try (intro _; rfl)
  intro h
  have h2 := compute_record_no_err desc.size desc.format (desc.mip_level_count - 1) 1
  rw [h] at h2
  simp [GenOutcome.isErr] at h2

/-- If the render backend's generate returns an error, it recorded no
commands. -/
theorem render_err_no_commands (hints : List TextureFormat)
    (desc : TextureDescriptor) (e : Error) :
    (RenderMipmapGenerator.generate hints desc).1 = .err e →
    (RenderMipmapGenerator.generate hints desc).2 = [] := by
  unfold RenderMipmapGenerator.generate
  exact render_src_dst_err_no_commands hints .texture .texture desc desc 0 e

/-- The copy loop's outcome is never a recoverable error. -/
theorem copy_record_ne_err (ts : Extent3d) (r i : Nat) (e : Error) :
    (copy_record ts i r).1 ≠ .err e := by
  intro h
  have h2 := copy_record_no_err ts r i
  rw [h] at h2
  simp [GenOutcome.isErr] at h2

/-- If the copy backend's generate returns an error, it recorded no
commands (in particular the underlying render invocation recorded none
before erroring). -/
theorem copy_err_no_commands (hints : List TextureFormat)
    (desc : TextureDescriptor) (e : Error) :
    (CopyMipmapGenerator.generate hints desc).1 = .err e →
    (CopyMipmapGenerator.generate hints desc).2 = [] := by
  unfold CopyMipmapGenerator.generate
  split
  · intro _; rfl
  · rename_i tmp_size hts
    split
    · intro _; rfl
    · rename_i tmc htmc
      dsimp only
      rcases hG : RenderMipmapGenerator.generate_src_dst hints .texture .tmp_texture desc
          { size := tmp_size, mip_level_count := tmc,
            sample_count := desc.sample_count, dimension := desc.dimension,
            format := desc.format,
            usage := RenderMipmapGenerator.required_usage.union TextureUsage.COPY_SRC } 1
        with ⟨out, rcmds⟩
      cases out with
      | ok =>
        intro h
        exact absurd h (copy_record_ne_err _ _ _ _)
      | err e2 =>
        intro h
        have h2 := render_src_dst_err_no_commands hints .texture .tmp_texture desc
          { size := tmp_size, mip_level_count := tmc,
            sample_count := desc.sample_count, dimension := desc.dimension,
            format := desc.format,
            usage := RenderMipmapGenerator.required_usage.union TextureUsage.COPY_SRC } 1 e2
        rw [hG] at h2
        exact h2 rfl
      | panicked =>
        intro h
        exact absurd h (by simp)

/-- If the recommended dispatcher returns an error, none of the three
attempts recorded any command. -/
theorem recommended_err_no_commands (hints : List TextureFormat)
    (desc : TextureDescriptor) (e : Error) :
    (RecommendedMipmapGenerator.generate hints desc).1 = .err e →
    (RecommendedMipmapGenerator.generate hints desc).2 = [] := by
  unfold RecommendedMipmapGenerator.generate
  rcases hc : ComputeMipmapGenerator.generate hints desc with ⟨co, cc⟩
  rcases hr : RenderMipmapGenerator.generate hints desc with ⟨ro, rc⟩
  rcases hk : CopyMipmapGenerator.generate hints desc with ⟨ko, kc⟩
  cases co with
  | err ec =>
    have hcc : cc = [] := by
      have h2 := compute_err_no_commands hints desc ec
      rw [hc] at h2
      exact h2 rfl
    cases ro with
    | err er =>
      have hrc : rc = [] := by
        have h2 := render_err_no_commands hints desc er
        rw [hr] at h2
        exact h2 rfl
      cases ko with
      | err ek =>
        have hkc : kc = [] := by
          have h2 := copy_err_no_commands hints desc ek
          rw [hk] at h2
          exact h2 rfl
        intro _
        simp [hcc, hrc, hkc]
      | ok => intro h; exact absurd h (by simp)
      | panicked => intro h; exact absurd h (by simp)
    | ok => intro h; exact absurd h (by simp)
    | panicked => intro h; exact absurd h (by simp)
  | ok => intro h; exact absurd h (by simp)
  | panicked => intro h; exact absurd h (by simp)

/-- Claim C8: for each of the four backends, whenever `generate` returns
an error, the call appended no command to the caller-supplied encoder —
all validation happens before any command is recorded. -/
theorem generate_error_records_no_commands (hints : List TextureFormat)
    (desc : TextureDescriptor) (e : Error) :
    ((ComputeMipmapGenerator.generate hints desc).1 = .err e →
      (ComputeMipmapGenerator.generate hints desc).2 = []) ∧
    ((RenderMipmapGenerator.generate hints desc).1 = .err e →
      (RenderMipmapGenerator.generate hints desc).2 = []) ∧
    ((CopyMipmapGenerator.generate hints desc).1 = .err e →
      (CopyMipmapGenerator.generate hints desc).2 = []) ∧
    ((RecommendedMipmapGenerator.generate hints desc).1 = .err e →
      (RecommendedMipmapGenerator.generate hints desc).2 = []) :=
  ⟨compute_err_no_commands hints desc e, render_err_no_commands hints desc e,
   copy_err_no_commands hints desc e, recommended_err_no_commands hints desc e⟩

/-- A descriptor with empty usage: every backend rejects it. -/
def empty_usage_descriptor : TextureDescriptor :=
  { size := ⟨512, 512, 1⟩, mip_level_count := 10, sample_count := 1,
    dimension := .D2, format := .R8Unorm, usage := TextureUsage.empty }

/-- Claim C8 witness. -/
theorem generate_error_records_no_commands_witness :
    (ComputeMipmapGenerator.generate [.R8Unorm] empty_usage_descriptor).2 = [] ∧
    (RenderMipmapGenerator.generate [.R8Unorm] empty_usage_descriptor).2 = [] ∧
    (CopyMipmapGenerator.generate [.R8Unorm] empty_usage_descriptor).2 = [] ∧
    (RecommendedMipmapGenerator.generate [.R8Unorm] empty_usage_descriptor).2 = [] :=
  have h := generate_error_records_no_commands [.R8Unorm] empty_usage_descriptor
    (.UnsupportedUsage TextureUsage.empty)
  ⟨h.1 (by decide), h.2.1 (by decide), h.2.2.1 (by decide), h.2.2.2 (by decide)⟩

/-! ### Claim C9 -/

/-- Length of the row-extraction: H rows of U bytes each, taken from a
buffer of rows of P ≥ U bytes. -/
theorem rows_extract_length (l : List Nat) (U P : Nat) (hUP : U ≤ P) :
    ∀ H : Nat, H * P ≤ l.length →
    ((List.range H).flatMap (fun y => (l.drop (y * P)).take U)).length = H * U := by
  intro H
  induction H with
  | zero => intro _; simp
  | succ n ih =>
    intro hl
    have hstep : n * P + P ≤ l.length := by
      rw [Nat.succ_mul] at hl
      exact hl
    have hn : n * P ≤ l.length := le_trans (Nat.le_add_right _ _) hstep
    rw [List.range_succ, List.flatMap_append, List.length_append, ih hn]
    simp only [List.flatMap_cons, List.flatMap_nil, List.append_nil, List.length_take,
      List.length_drop]
    rw [min_eq_left (by omega)]
    rw [Nat.succ_mul]

/-- Each byte of the extraction comes from the unpadded prefix of the
corresponding padded row: position y*U + j of the output is position
y*P + j of the padded buffer. -/
theorem rows_extract_get (l : List Nat) (U P : Nat) (hUP : U ≤ P) :
    ∀ H y j : Nat, H * P ≤ l.length → y < H → j < U →
    ((List.range H).flatMap (fun y => (l.drop (y * P)).take U)).get? (y * U + j) =
      l.get? (y * P + j) := by
  intro H
  induction H with
  | zero => intro y j _ hy _; omega
  | succ n ih =>
    intro y j hl hy hj
    have hstep : n * P + P ≤ l.length := by
      rw [Nat.succ_mul] at hl
      exact hl
    have hn : n * P ≤ l.length := le_trans (Nat.le_add_right _ _) hstep
    rw [List.range_succ, List.flatMap_append]
    simp only [List.flatMap_cons, List.flatMap_nil, List.append_nil]
    rcases Nat.lt_or_ge y n with hyn | hyn
    · rw [List.get?_append]
      · exact ih y j hn hyn hj
      · rw [rows_extract_length l U P hUP n hn]
        have h1 : y + 1 ≤ n := hyn
        have h2 : (y + 1) * U ≤ n * U := Nat.mul_le_mul_right U h1
        have h3 : y * U + j < (y + 1) * U := by
          rw [Nat.succ_mul]
          omega
        omega
    · have hyeq : y = n := by omega
      rw [hyeq]
      rw [List.get?_append_right]
      · rw [rows_extract_length l U P hUP n hn, Nat.add_sub_cancel_left,
          List.get?_take hj, List.get?_drop]
      · rw [rows_extract_length l U P hUP n hn]
        exact Nat.le_add_right _ _

/-- Claim C9: for any row alignment constant, any base size and any mip
level i, the per-level readback dimensions (base width/height clamped,
divided by 2^i, clamped again by the layout calculator) yield an
extracted buffer that is dense: its length is exactly
width * height * bytes_per_texel, and every byte comes from the unpadded
prefix of its padded row — the alignment padding never appears. -/
theorem readback_levels_dense (align w h bpt i : Nat) (d : MipBufferDimensions)
    (padded : List Nat) (halign : 0 < align)
    (hd : MipBufferDimensions.new_aligned align (max w 1 / 2 ^ i) (max h 1 / 2 ^ i) bpt
      = some d)
    (hlen : padded.length = d.height * d.padded_bytes_per_row) :
    d.width = max (max w 1 / 2 ^ i) 1 ∧
    d.height = max (max h 1 / 2 ^ i) 1 ∧
    (exact_buffer d padded).length = d.width * d.height * bpt ∧
    (∀ y j, y < d.height → j < d.unpadded_bytes_per_row →
      (exact_buffer d padded).get? (y * d.unpadded_bytes_per_row + j) =
        padded.get? (y * d.padded_bytes_per_row + j)) := by
  obtain ⟨hw', hh', hb', hu', hp'⟩ := new_aligned_inv align _ _ bpt d hd
  have hUP : d.unpadded_bytes_per_row ≤ d.padded_bytes_per_row := by
    rw [hu', hp']
    exact Nat.le_add_right _ _
  have hlen' : d.height * d.padded_bytes_per_row ≤ padded.length := le_of_eq hlen.symm
  have huw : d.unpadded_bytes_per_row = d.width * bpt := by
    rw [hu', hw']
  refine ⟨hw', hh', ?_, ?_⟩
  · unfold exact_buffer
    rw [rows_extract_length padded _ _ hUP d.height hlen', huw]
    ring
  · intro y j hy hj
    unfold exact_buffer
    exact rows_extract_get padded _ _ hUP d.height y j hlen' hy hj

/-- Claim C9 witness (align 256, base 4x4, bytes 1, level 1: dims 2x2,
padded rows of 256 bytes). -/
theorem readback_levels_dense_witness :
    (exact_buffer ⟨2, 2, 1, 2, 256⟩ (List.replicate 512 0)).length = 2 * 2 * 1 ∧
    (exact_buffer ⟨2, 2, 1, 2, 256⟩ (List.replicate 512 0)).get? (1 * 2 + 1) =
      (List.replicate 512 0).get? (1 * 256 + 1) := by
  have hmain := readback_levels_dense 256 4 4 1 1 ⟨2, 2, 1, 2, 256⟩
    (List.replicate 512 0) (by norm_num) (by decide)
    (by simp only [List.length_replicate])
  exact ⟨hmain.2.2.1, hmain.2.2.2 1 1 (by norm_num) (by norm_num)⟩
